import Mathlib

/-!
Formal model of `point_mapper.py`.

The repository reconstructs 2D coordinates of a set of points from pairwise
distance measurements by iteratively intersecting circles centered at
already-placed points (`solve`, `solve_initial`, `circle_intersect`),
and post-processes the result into a two-nearest-neighbor adjacency
structure (`triangles`).

The embedding below translates the core functions directly from the source:

* Python floats become real numbers (`ℝ`), `math.dist` becomes `mdist`,
  `math.atan2` becomes `atan2` (the standard piecewise definition of the
  C `atan2` that Python's `math.atan2` wraps).
* Python dicts (`points`, `connections`) become insertion-ordered
  association lists (`alInsert` / `alLookup`); Python dict assignment
  updates an existing key in place and appends a fresh key, and
  `alInsert` mirrors exactly that.
* The unbounded `while` loop inside `circle_intersect` becomes the
  fuel-indexed recursion `searchLoop`; exhausting the fuel produces the
  embedding-only outcome `Err.outOfFuel`, which corresponds to the Python
  loop simply not having finished yet.
* Python exceptions become `Except Err`.  The spec's error taxonomy is
  mapped onto the concrete raising sites of the code: an out-of-range
  index into the record list (`data[0]`, `data[1]`, `data[2]` in
  `solve_initial`) is `Err.insufficientData`; an out-of-range index into a
  measurement list or the circle list derived from it
  (`data[1].distances[0]`, `circles[0]`, `circles[1]`, `circles[2]`) is
  `Err.insufficientMeasurements`; a failed lookup of a reference id in the
  points dict (`points[p]` in `convert_to_circle`) is
  `Err.missingReference`; the `RuntimeError` raised by `circle_intersect`
  is `Err.disjointCircles`.
* `load_data`, the CSV/SCAD writers and the CLI are I/O adapters outside
  the core (spec §1, §6) and are not modelled; `solve` here consumes the
  record list that `load_data` would have produced.
-/

namespace PointMapper

/-- Python `Circle = namedtuple('Circle', ['x', 'y', 'r'])`. -/
structure Circle where
  x : ℝ
  y : ℝ
  r : ℝ

/-- Python `DistanceData = namedtuple('DistanceData', ['origin', 'distance'])`. -/
structure DistanceData where
  origin : ℤ
  distance : ℝ

/-- Python `PointData = namedtuple('PointData', ['id', 'distances'])`. -/
structure PointData where
  id : ℤ
  distances : List DistanceData

/-- A 2D point, a Python pair `(x, y)`. -/
abbrev Pt := ℝ × ℝ

/-- The points dict `id -> (x, y)`, in insertion order. -/
abbrev PlacementMap := List (ℤ × Pt)

/-- The connections dict `id -> [neighbor ids]`, in insertion order. -/
abbrev NeighborGraph := List (ℤ × List ℤ)

/-- Failure modes of the embedded core, mapped from the concrete failure
sites of the Python code as described in the file header. -/
inductive Err where
  | insufficientData
  | insufficientMeasurements
  | missingReference
  | disjointCircles
  | outOfFuel
  deriving DecidableEq

/-- Python dict lookup `m[k]` (as an `Option`). -/
def alLookup {α : Type} : List (ℤ × α) → ℤ → Option α
  | [], _ => none
  | (k, v) :: rest, i => if k = i then some v else alLookup rest i

/-- Python dict assignment `m[k] = v`: update an existing key in place,
append a fresh key at the end. -/
def alInsert {α : Type} : List (ℤ × α) → ℤ → α → List (ℤ × α)
  | [], k, v => [(k, v)]
  | (k0, v0) :: rest, k, v =>
      if k0 = k then (k, v) :: rest else (k0, v0) :: alInsert rest k v

/-- Python `math.dist(p, q)`: Euclidean distance of two 2D points. -/
noncomputable def mdist (p q : Pt) : ℝ :=
  Real.sqrt ((p.1 - q.1) ^ 2 + (p.2 - q.2) ^ 2)

/-- Python `math.atan2(y, x)`: the standard piecewise definition in terms of
`arctan`, as computed by the C `atan2` underlying Python's. -/
noncomputable def atan2 (y x : ℝ) : ℝ :=
  if 0 < x then Real.arctan (y / x)
  else if x < 0 then
    (if 0 ≤ y then Real.arctan (y / x) + Real.pi
     else Real.arctan (y / x) - Real.pi)
  else
    (if 0 < y then Real.pi / 2
     else if y < 0 then -(Real.pi / 2)
     else 0)

/-- Indexing `data[i]` into the record list; out of range is the
record-count failure of `solve_initial` (spec: `InsufficientDataError`). -/
def getRec (data : List PointData) (i : ℕ) : Except Err PointData :=
  match data.get? i with
  | some r => .ok r
  | none => .error .insufficientData

/-- Indexing `distances[i]` into a measurement list; out of range is a
measurement-count failure (spec: `InsufficientMeasurementsError`). -/
def getMeas (l : List DistanceData) (i : ℕ) : Except Err DistanceData :=
  match l.get? i with
  | some d => .ok d
  | none => .error .insufficientMeasurements

/-- Indexing `circles[i]` into the circle list built from a record's
measurements; out of range is a measurement-count failure
(spec: `InsufficientMeasurementsError`). -/
def getCirc (l : List Circle) (i : ℕ) : Except Err Circle :=
  match l.get? i with
  | some c => .ok c
  | none => .error .insufficientMeasurements

/-- Python `convert_to_circle(points, distance_data)`:
`[Circle(*points[p], d) for (p, d) in distance_data]`; a reference id
missing from the points dict raises (spec: `MissingReferenceError`). -/
def convert_to_circle (points : PlacementMap) :
    List DistanceData → Except Err (List Circle)
  | [] => .ok []
  | d :: ds =>
      match alLookup points d.origin with
      | none => .error .missingReference
      | some p =>
          match convert_to_circle points ds with
          | .error e => .error e
          | .ok cs => .ok (⟨p.1, p.2, d.distance⟩ :: cs)

/-- Constant `precision = 10e-7` in `circle_intersect`. -/
noncomputable def precision : ℝ := 10 / 10 ^ 7

/-- The adaptive angular search loop of `circle_intersect`
(`while lowest > precision: ...`), with the loop state passed explicitly
and an explicit fuel bound standing in for the unbounded `while`.
State: `delta`, `theta`, `lastD` (= `last_distance`), `lowest`, `x1`, `y1`.
Returns the final `(x1, y1, theta)` or `none` when the fuel runs out. -/
noncomputable def searchLoop (c1 c2 : Circle) :
    ℕ → ℝ → ℝ → ℝ → ℝ → ℝ → ℝ → Option (ℝ × ℝ × ℝ)
  | fuel, delta, theta, lastD, lowest, x1, y1 =>
      if lowest > precision then
        match fuel with
        | 0 => none
        | fuel + 1 =>
            let xN := Real.cos theta * c1.r + c1.x
            let yN := Real.sin theta * c1.r + c1.y
            let dN := |mdist (xN, yN) (c2.x, c2.y) - c2.r|
            let deltaN := if dN > lastD then delta * (-(1 / 2)) else delta
            let thetaN := theta + deltaN
            let lowestN := if dN < lowest then dN else lowest
            searchLoop c1 c2 fuel deltaN thetaN dN lowestN xN yN
      else some (x1, y1, theta)

/-- Python `circle_intersect(circle1, circle2)`: check the intersection
precondition, then run the adaptive angular search for the first
intersection point and mirror its angle across the line of centers for
the second.  `fuel` bounds the embedded `while` loop. -/
noncomputable def circle_intersect (fuel : ℕ) (c1 c2 : Circle) :
    Except Err (Pt × Pt) :=
  let ccd := mdist (c1.x, c1.y) (c2.x, c2.y)
  if ccd ≥ c1.r + c2.r ∨ ccd + c1.r < c2.r ∨ ccd + c2.r < c1.r then
    .error .disjointCircles
  else
    match searchLoop c1 c2 fuel (Real.pi / 10) 0 (c1.r * 2) (c1.r * 2) 0 0 with
    | none => .error .outOfFuel
    | some (x1, y1, theta) =>
        let offset_angle := atan2 (c2.y - c1.y) (c2.x - c1.x)
        let theta2 := theta + 2 * (offset_angle - theta)
        let x2 := Real.cos theta2 * c1.r + c1.x
        let y2 := Real.sin theta2 * c1.r + c1.y
        .ok ((x1, y1), (x2, y2))

/-- Python `solve_initial(data)`: place the first three records by the fixed
bootstrap convention (origin, due north, first intersection candidate). -/
noncomputable def solve_initial (fuel : ℕ) (data : List PointData) :
    Except Err PlacementMap :=
  match getRec data 0 with
  | .error e => .error e
  | .ok r0 =>
    let points0 : PlacementMap := alInsert [] r0.id ((0 : ℝ), (0 : ℝ))
    match getRec data 1 with
    | .error e => .error e
    | .ok r1 =>
      match getMeas r1.distances 0 with
      | .error e => .error e
      | .ok m0 =>
        let points1 := alInsert points0 r1.id ((0 : ℝ), m0.distance)
        match getRec data 2 with
        | .error e => .error e
        | .ok r2 =>
          match convert_to_circle points1 r2.distances with
          | .error e => .error e
          | .ok intersects =>
            match getCirc intersects 0 with
            | .error e => .error e
            | .ok c0 =>
              match getCirc intersects 1 with
              | .error e => .error e
              | .ok c1 =>
                match circle_intersect fuel c0 c1 with
                | .error e => .error e
                | .ok pq => .ok (alInsert points1 r2.id pq.1)

/-- The body of the `for point in data[3:]` loop of `solve`: build circles
from the record's measurements, intersect the first two, and keep the
candidate whose distance to the third circle's center is closest to the
third radius. -/
noncomputable def solveStep (fuel : ℕ) (points : PlacementMap)
    (point : PointData) : Except Err PlacementMap :=
  match convert_to_circle points point.distances with
  | .error e => .error e
  | .ok circles =>
    match getCirc circles 0 with
    | .error e => .error e
    | .ok c0 =>
      match getCirc circles 1 with
      | .error e => .error e
      | .ok c1 =>
        match circle_intersect fuel c0 c1 with
        | .error e => .error e
        | .ok intersects =>
          match getCirc circles 2 with
          | .error e => .error e
          | .ok c2 =>
            let norm0 := |mdist (c2.x, c2.y) intersects.1 - c2.r|
            let norm1 := |mdist (c2.x, c2.y) intersects.2 - c2.r|
            let point_pos := if norm0 < norm1 then intersects.1 else intersects.2
            .ok (alInsert points point.id point_pos)

/-- The `for point in data[3:]` loop of `solve`, folded over the remaining
records. -/
noncomputable def solveLoop (fuel : ℕ) (points : PlacementMap) :
    List PointData → Except Err PlacementMap
  | [] => .ok points
  | p :: rest =>
      match solveStep fuel points p with
      | .error e => .error e
      | .ok pts2 => solveLoop fuel pts2 rest

/-- Python `solve`: bootstrap the first three records, then place every further
record from its first three measurements.  The Python function receives a
file name and parses it with the out-of-core `load_data`; the embedding
consumes the parsed record list directly. -/
noncomputable def solve (fuel : ℕ) (data : List PointData) :
    Except Err PlacementMap :=
  match solve_initial fuel data with
  | .error e => .error e
  | .ok points => solveLoop fuel points (data.drop 3)

/-- Stable insertion into a list sorted ascending by the second component;
a new element goes after all elements with a key not exceeding its own,
so the fold below is a stable ascending sort, agreeing with Python's
stable `sorted(..., key=lambda p: p[1])`. -/
noncomputable def insertSorted (x : ℤ × ℝ) : List (ℤ × ℝ) → List (ℤ × ℝ)
  | [] => [x]
  | y :: ys => if x.2 < y.2 then x :: y :: ys else y :: insertSorted x ys

/-- Python `sorted(l, key=lambda p: p[1])`: stable ascending sort by distance. -/
noncomputable def sortByDist (l : List (ℤ × ℝ)) : List (ℤ × ℝ) :=
  l.foldl (fun acc x => insertSorted x acc) []

/-- The body of the `for id, pos in points.items()` loop of `triangles`,
processing the remaining items while threading the `connections` dict. -/
noncomputable def triangles_go (all : PlacementMap) :
    NeighborGraph → List (ℤ × Pt) → NeighborGraph
  | connections, [] => connections
  | connections, (id, pos) :: rest =>
      let distances :=
        (all.filter (fun e => e.1 ≠ id)).map (fun e => (e.1, mdist pos e.2))
      let unconnected := distances.filter (fun e =>
        match alLookup connections e.1 with
        | none => true
        | some l => decide (id ∉ l))
      let close_points := (sortByDist unconnected).take 2
      let connections2 := alInsert connections id (close_points.map (fun i => i.1))
      triangles_go all connections2 rest

/-- Python `triangles(points)`: for each point in insertion order, keep the two
nearest points that have not already recorded a link back to it. -/
noncomputable def triangles (points : PlacementMap) : NeighborGraph :=
  triangles_go points [] points

/-! ### Concrete example data

A family of concrete inputs used to exercise the solver.  The radius
`epsR = 1/2500000` is small enough that `2 * epsR` does not exceed the
search precision `10e-7`, so the adaptive search loop of
`circle_intersect` exits before its first iteration and the call can be
evaluated in closed form. -/

/-- A degenerate small radius that makes the search loop exit at once. -/
noncomputable def epsR : ℝ := 1 / 2500000

/-- Bootstrap record 0: placed at the origin, measurements unused. -/
noncomputable def recA : PointData := ⟨0, []⟩

/-- Bootstrap record 1: one unit due north of record 0. -/
noncomputable def recB : PointData := ⟨1, [⟨0, 1⟩]⟩

/-- Bootstrap record 2: a degenerate tiny first circle around point 0 and
a unit circle around point 1. -/
noncomputable def recC : PointData := ⟨2, [⟨0, epsR⟩, ⟨1, 1⟩]⟩

/-- The placement map produced by the bootstrap on `recA, recB, recC`. -/
noncomputable def map3 : PlacementMap :=
  [(0, ((0 : ℝ), (0 : ℝ))), (1, ((0 : ℝ), (1 : ℝ))), (2, ((0 : ℝ), (0 : ℝ)))]

/-- A fourth record with three measurements to placed points. -/
noncomputable def rec3good : PointData := ⟨3, [⟨2, epsR⟩, ⟨1, 1⟩, ⟨0, 1⟩]⟩

/-- Record `rec3good` with an extra fourth measurement to the placed point 0. -/
noncomputable def rec3extra : PointData := ⟨3, [⟨2, epsR⟩, ⟨1, 1⟩, ⟨0, 1⟩, ⟨0, 1⟩]⟩

/-- Record `rec3good` with an extra fourth measurement to the unplaced id 99. -/
noncomputable def rec3bad : PointData := ⟨3, [⟨2, epsR⟩, ⟨1, 1⟩, ⟨0, 1⟩, ⟨99, 1⟩]⟩

/-- A fourth record with only two measurements, whose circles are disjoint. -/
noncomputable def rec3short : PointData := ⟨3, [⟨0, 1⟩, ⟨1, 10⟩]⟩

/-- The placement map after `rec3good` is placed on top of `map3`. -/
noncomputable def map4 : PlacementMap :=
  [(0, ((0 : ℝ), (0 : ℝ))), (1, ((0 : ℝ), (1 : ℝ))), (2, ((0 : ℝ), (0 : ℝ))),
   (3, ((-epsR : ℝ), (0 : ℝ)))]

/-- Three collinear points on the vertical axis for the neighbor-graph
counterexample (true points `(0,0)`, `(1,0)`, `(2,0)`). -/
noncomputable def colinPts : PlacementMap :=
  [(0, ((0 : ℝ), (0 : ℝ))), (1, ((1 : ℝ), (0 : ℝ))), (2, ((2 : ℝ), (0 : ℝ)))]

/-! ### Association-list (Python dict) lemmas -/

theorem alLookup_alInsert_self {α : Type} (m : List (ℤ × α)) (k : ℤ) (v : α) :
    alLookup (alInsert m k v) k = some v := by
  induction m with
  | nil => simp [alInsert, alLookup]
  | cons hd t ih =>
      obtain ⟨k0, v0⟩ := hd
      by_cases hk : k0 = k
      · subst hk
        simp [alInsert, alLookup]
      · simp [alInsert, alLookup, hk, ih]

theorem alLookup_alInsert_ne {α : Type} (m : List (ℤ × α)) (k j : ℤ) (v : α)
    (h : k ≠ j) : alLookup (alInsert m k v) j = alLookup m j := by
  induction m with
  | nil => simp [alInsert, alLookup, h]
  | cons hd t ih =>
      obtain ⟨k0, v0⟩ := hd
      by_cases hk : k0 = k
      · subst hk
        simp [alInsert, alLookup, h]
      · by_cases hj : k0 = j
        · subst hj
          simp [alInsert, alLookup, hk, Ne.symm h]
        · simp [alInsert, alLookup, hk, hj, ih]

/-! ### `convert_to_circle` lemmas -/

theorem convert_ok_length (pts : PlacementMap) :
    ∀ (l : List DistanceData) (cs : List Circle),
      convert_to_circle pts l = .ok cs → cs.length = l.length := by
  intro l
  induction l with
  | nil =>
      intro cs h
      simp only [convert_to_circle] at h
      cases h
      rfl
  | cons d ds ih =>
      intro cs h
      simp only [convert_to_circle] at h
      cases hl : alLookup pts d.origin with
      | none => rw [hl] at h; cases h
      | some p =>
          rw [hl] at h
          cases hr : convert_to_circle pts ds with
          | error e => rw [hr] at h; cases h
          | ok cs0 =>
              rw [hr] at h
              cases h
              simp [ih cs0 hr]

theorem convert_ok_take (pts : PlacementMap) (n : ℕ) :
    ∀ (l : List DistanceData) (cs : List Circle),
      convert_to_circle pts l = .ok cs →
      convert_to_circle pts (l.take n) = .ok (cs.take n) := by
  induction n with
  | zero => intro l cs _; simp [convert_to_circle]
  | succ n ih =>
      intro l cs h
      cases l with
      | nil =>
          simp only [convert_to_circle] at h
          cases h
          simp [convert_to_circle]
      | cons d ds =>
          simp only [convert_to_circle] at h
          cases hl : alLookup pts d.origin with
          | none => rw [hl] at h; cases h
          | some p =>
              rw [hl] at h
              cases hr : convert_to_circle pts ds with
              | error e => rw [hr] at h; cases h
              | ok cs0 =>
                  rw [hr] at h
                  cases h
                  simp only [List.take_succ_cons, convert_to_circle, hl, ih ds cs0 hr]

theorem get?_take_of_lt {α : Type} :
    ∀ (l : List α) (n i : ℕ), i < n → (l.take n).get? i = l.get? i := by
  intro l
  induction l with
  | nil => intro n i _; simp
  | cons x xs ih =>
      intro n i hin
      cases n with
      | zero => omega
      | succ n =>
          cases i with
          | zero => simp
          | succ i => simpa using ih n i (by omega)

/-! ### `circle_intersect` evaluation helpers -/

theorem searchLoop_skip (c1 c2 : Circle) (fuel : ℕ)
    (delta theta lastD lowest x1 y1 : ℝ) (h : ¬ lowest > precision) :
    searchLoop c1 c2 fuel delta theta lastD lowest x1 y1 = some (x1, y1, theta) := by
  unfold searchLoop
  rw [if_neg h]

theorem searchLoop_zero (c1 c2 : Circle)
    (delta theta lastD lowest x1 y1 : ℝ) (h : lowest > precision) :
    searchLoop c1 c2 0 delta theta lastD lowest x1 y1 = none := by
  unfold searchLoop
  rw [if_pos h]

theorem circle_intersect_guard_true (fuel : ℕ) (c1 c2 : Circle)
    (h : mdist (c1.x, c1.y) (c2.x, c2.y) ≥ c1.r + c2.r ∨
         mdist (c1.x, c1.y) (c2.x, c2.y) + c1.r < c2.r ∨
         mdist (c1.x, c1.y) (c2.x, c2.y) + c2.r < c1.r) :
    circle_intersect fuel c1 c2 = .error .disjointCircles := by
  unfold circle_intersect
  rw [if_pos h]

theorem circle_intersect_not_disjoint_of_guard_false (fuel : ℕ) (c1 c2 : Circle)
    (h : ¬ (mdist (c1.x, c1.y) (c2.x, c2.y) ≥ c1.r + c2.r ∨
            mdist (c1.x, c1.y) (c2.x, c2.y) + c1.r < c2.r ∨
            mdist (c1.x, c1.y) (c2.x, c2.y) + c2.r < c1.r)) :
    circle_intersect fuel c1 c2 ≠ .error .disjointCircles := by
  unfold circle_intersect
  rw [if_neg h]
  split <;> simp

theorem circle_intersect_skip (fuel : ℕ) (c1 c2 : Circle)
    (hg : ¬ (mdist (c1.x, c1.y) (c2.x, c2.y) ≥ c1.r + c2.r ∨
             mdist (c1.x, c1.y) (c2.x, c2.y) + c1.r < c2.r ∨
             mdist (c1.x, c1.y) (c2.x, c2.y) + c2.r < c1.r))
    (hsmall : ¬ c1.r * 2 > precision) :
    circle_intersect fuel c1 c2 =
      .ok ((0, 0),
        (Real.cos (0 + 2 * (atan2 (c2.y - c1.y) (c2.x - c1.x) - 0)) * c1.r + c1.x,
         Real.sin (0 + 2 * (atan2 (c2.y - c1.y) (c2.x - c1.x) - 0)) * c1.r + c1.y)) := by
  unfold circle_intersect
  rw [if_neg hg, searchLoop_skip c1 c2 fuel _ _ _ _ _ _ hsmall]

theorem circle_intersect_zero_fuel (c1 c2 : Circle)
    (hg : ¬ (mdist (c1.x, c1.y) (c2.x, c2.y) ≥ c1.r + c2.r ∨
             mdist (c1.x, c1.y) (c2.x, c2.y) + c1.r < c2.r ∨
             mdist (c1.x, c1.y) (c2.x, c2.y) + c2.r < c1.r))
    (hbig : c1.r * 2 > precision) :
    circle_intersect 0 c1 c2 = .error .outOfFuel := by
  unfold circle_intersect
  rw [if_neg hg, searchLoop_zero c1 c2 _ _ _ _ _ _ hbig]

/-- Evaluate `mdist` when the squared distance is a recognizable square. -/
theorem mdist_sq (a b c d s : ℝ) (h : (a - c) ^ 2 + (b - d) ^ 2 = s ^ 2)
    (hs : 0 ≤ s) : mdist (a, b) (c, d) = s := by
  unfold mdist
  rw [show ((a, b).1 - (c, d).1) ^ 2 + ((a, b).2 - (c, d).2) ^ 2 =
        (a - c) ^ 2 + (b - d) ^ 2 from rfl, h, Real.sqrt_sq hs]

/-! ### Evaluation of the degenerate tiny-radius intersection -/

theorem atan2_one_zero : atan2 1 0 = Real.pi / 2 := by
  unfold atan2
  norm_num

theorem circle_intersect_tiny (fuel : ℕ) :
    circle_intersect fuel ⟨0, 0, epsR⟩ ⟨0, 1, 1⟩ = .ok ((0, 0), (-epsR, 0)) := by
  have hd : mdist ((0 : ℝ), (0 : ℝ)) ((0 : ℝ), (1 : ℝ)) = 1 :=
    mdist_sq 0 0 0 1 1 (by norm_num) (by norm_num)
  have hg : ¬ (mdist ((0 : ℝ), (0 : ℝ)) ((0 : ℝ), (1 : ℝ)) ≥ epsR + 1 ∨
               mdist ((0 : ℝ), (0 : ℝ)) ((0 : ℝ), (1 : ℝ)) + epsR < 1 ∨
               mdist ((0 : ℝ), (0 : ℝ)) ((0 : ℝ), (1 : ℝ)) + 1 < epsR) := by
    rw [hd]
    norm_num [epsR]
  have hs : ¬ (epsR * 2 > precision) := by norm_num [epsR, precision]
  rw [circle_intersect_skip fuel ⟨0, 0, epsR⟩ ⟨0, 1, 1⟩ hg hs]
  rw [show ((1 : ℝ) - 0) = 1 by norm_num, show ((0 : ℝ) - 0) = 0 by norm_num,
    atan2_one_zero, show (0 : ℝ) + 2 * (Real.pi / 2 - 0) = Real.pi by ring,
    Real.cos_pi, Real.sin_pi]
  norm_num

theorem solve_initial_eval (fuel : ℕ) (rest : List PointData) :
    solve_initial fuel (recA :: recB :: recC :: rest) = .ok map3 := by
  simp [solve_initial, recA, recB, recC, map3, getRec, getMeas, getCirc,
    convert_to_circle, alLookup, alInsert, circle_intersect_tiny fuel]

theorem solveStep_rec3good (fuel : ℕ) :
    solveStep fuel map3 rec3good = .ok map4 := by
  have h00 : mdist ((0 : ℝ), (0 : ℝ)) ((0 : ℝ), (0 : ℝ)) = 0 :=
    mdist_sq 0 0 0 0 0 (by norm_num) (by norm_num)
  have h0e : mdist ((0 : ℝ), (0 : ℝ)) ((-epsR : ℝ), (0 : ℝ)) = epsR :=
    mdist_sq 0 0 (-epsR) 0 epsR (by ring) (by norm_num [epsR])
  have hconv : convert_to_circle map3 rec3good.distances =
      .ok [⟨0, 0, epsR⟩, ⟨0, 1, 1⟩, ⟨0, 0, 1⟩] := by
    simp [convert_to_circle, alLookup, map3, rec3good]
  have habs : ¬ (|(0 : ℝ) - 1| < |epsR - 1|) := by
    rw [show |(0 : ℝ) - 1| = 1 by norm_num,
      abs_of_neg (by norm_num [epsR] : epsR - 1 < 0)]
    norm_num [epsR]
  simp only [solveStep, hconv, getCirc, List.get?_cons_zero, List.get?_cons_succ,
    circle_intersect_tiny fuel]
  rw [h00, h0e, if_neg habs]
  simp [alInsert, map3, map4, rec3good]

theorem solve_boot3 (fuel : ℕ) : solve fuel [recA, recB, recC] = .ok map3 := by
  simp only [solve, solve_initial_eval fuel [], List.drop, solveLoop]

theorem solve_d4good (fuel : ℕ) :
    solve fuel [recA, recB, recC, rec3good] = .ok map4 := by
  simp only [solve, solve_initial_eval fuel [rec3good], List.drop, solveLoop,
    solveStep_rec3good fuel]

/-! ### Claim C4 -/

/-- Claim C4: for every pair of circles with `d` the distance between the
centers, `circle_intersect` fails with the disjoint-circles error if and
only if `d ≥ r1 + r2`, or `d + r1 < r2`, or `d + r2 < r1`; when none of
these conditions holds it never produces this error. -/
theorem C4_theorem (fuel : ℕ) (c1 c2 : Circle) :
    circle_intersect fuel c1 c2 = .error .disjointCircles ↔
      (mdist (c1.x, c1.y) (c2.x, c2.y) ≥ c1.r + c2.r ∨
       mdist (c1.x, c1.y) (c2.x, c2.y) + c1.r < c2.r ∨
       mdist (c1.x, c1.y) (c2.x, c2.y) + c2.r < c1.r) := by
  constructor
  · intro h
    by_contra hc
    exact circle_intersect_not_disjoint_of_guard_false fuel c1 c2 hc h
  · exact circle_intersect_guard_true fuel c1 c2

/-! ### Claim C6 -/

/-- Claim C6 counterexample: the circles centered at `(0,0)` and `(1,0)`
with radii `2` and `1` are internally tangent (`d + r2 = r1` with
`d = 1 > 0`), yet `circle_intersect` does not reject them with the
disjoint-circles error; the precondition only rejects external tangency
(`d ≥ r1 + r2`) and strict containment (`d + r < R` strictly). -/
theorem C6_counterexample :
    mdist ((0 : ℝ), (0 : ℝ)) ((1 : ℝ), (0 : ℝ)) + (1 : ℝ) = 2 ∧
    circle_intersect 0 ⟨0, 0, 2⟩ ⟨1, 0, 1⟩ ≠ .error .disjointCircles := by
  have hd : mdist ((0 : ℝ), (0 : ℝ)) ((1 : ℝ), (0 : ℝ)) = 1 :=
    mdist_sq 0 0 1 0 1 (by norm_num) (by norm_num)
  refine ⟨by rw [hd]; norm_num, ?_⟩
  apply circle_intersect_not_disjoint_of_guard_false
  show ¬ (mdist ((0 : ℝ), (0 : ℝ)) ((1 : ℝ), (0 : ℝ)) ≥ 2 + 1 ∨
          mdist ((0 : ℝ), (0 : ℝ)) ((1 : ℝ), (0 : ℝ)) + 2 < 1 ∨
          mdist ((0 : ℝ), (0 : ℝ)) ((1 : ℝ), (0 : ℝ)) + 1 < 2)
  rw [hd]
  norm_num

/-- Claim C6 (amended): external tangency (`d = r1 + r2`) fails with the
disjoint-circles error, but internal tangency (`d + r1 = r2` or
`d + r2 = r1` with positive radii and positive center distance) passes
the precondition check, so tangency is not uniformly treated as
non-intersecting. -/
theorem C6_theorem (fuel : ℕ) (c1 c2 : Circle) :
    (mdist (c1.x, c1.y) (c2.x, c2.y) = c1.r + c2.r →
      circle_intersect fuel c1 c2 = .error .disjointCircles) ∧
    (0 < c1.r → 0 < mdist (c1.x, c1.y) (c2.x, c2.y) →
      mdist (c1.x, c1.y) (c2.x, c2.y) + c1.r = c2.r →
      circle_intersect fuel c1 c2 ≠ .error .disjointCircles) ∧
    (0 < c2.r → 0 < mdist (c1.x, c1.y) (c2.x, c2.y) →
      mdist (c1.x, c1.y) (c2.x, c2.y) + c2.r = c1.r →
      circle_intersect fuel c1 c2 ≠ .error .disjointCircles) := by
  refine ⟨fun h => circle_intersect_guard_true fuel c1 c2 (Or.inl (ge_of_eq h)),
    ?_, ?_⟩
  · intro hr hd ht
    apply circle_intersect_not_disjoint_of_guard_false
    push_neg
    exact ⟨by linarith, by linarith, by linarith⟩
  · intro hr hd ht
    apply circle_intersect_not_disjoint_of_guard_false
    push_neg
    exact ⟨by linarith, by linarith, by linarith⟩

/-- Claim C6 witness: externally tangent unit circles at distance 2 are
rejected; the internally tangent pairs with radii `1, 2` (either order)
at center distance 1 are not rejected. -/
theorem C6_witness :
    circle_intersect 0 ⟨0, 0, 1⟩ ⟨2, 0, 1⟩ = .error .disjointCircles ∧
    circle_intersect 0 ⟨0, 0, 1⟩ ⟨1, 0, 2⟩ ≠ .error .disjointCircles ∧
    circle_intersect 0 ⟨5, 0, 2⟩ ⟨6, 0, 1⟩ ≠ .error .disjointCircles := by
  have h1 : mdist ((0 : ℝ), (0 : ℝ)) ((2 : ℝ), (0 : ℝ)) = 2 :=
    mdist_sq 0 0 2 0 2 (by norm_num) (by norm_num)
  have h2 : mdist ((0 : ℝ), (0 : ℝ)) ((1 : ℝ), (0 : ℝ)) = 1 :=
    mdist_sq 0 0 1 0 1 (by norm_num) (by norm_num)
  have h3 : mdist ((5 : ℝ), (0 : ℝ)) ((6 : ℝ), (0 : ℝ)) = 1 :=
    mdist_sq 5 0 6 0 1 (by norm_num) (by norm_num)
  refine ⟨(C6_theorem 0 ⟨0, 0, 1⟩ ⟨2, 0, 1⟩).1 (by rw [h1]; norm_num),
    (C6_theorem 0 ⟨0, 0, 1⟩ ⟨1, 0, 2⟩).2.1 (by norm_num) (by rw [h2]; norm_num)
      (by rw [h2]; norm_num),
    (C6_theorem 0 ⟨5, 0, 2⟩ ⟨6, 0, 1⟩).2.2 (by norm_num) (by rw [h3]; norm_num)
      (by rw [h3]; norm_num)⟩

/-! ### Claim C7 -/

/-- Claim C7 counterexample: a 2-record input whose second record has no
measurements fails at the `data[1].distances[0]` access (a
measurement-count failure), not at the record-count access, so `solve`
does not fail with the insufficient-data error there. -/
theorem C7_counterexample :
    ([⟨0, []⟩, ⟨1, []⟩] : List PointData).length < 3 ∧
    solve 0 [⟨0, []⟩, ⟨1, []⟩] = .error .insufficientMeasurements ∧
    solve 0 [⟨0, []⟩, ⟨1, []⟩] ≠ .error .insufficientData := by
  refine ⟨by norm_num, rfl, by intro h; cases h⟩

/-- Claim C7 (amended): `solve` on fewer than 3 records always fails, with
the insufficient-data error, except that a 2-record input whose second
record has no measurements hits the `data[1].distances[0]` measurement
access first and fails with the insufficient-measurements error instead. -/
theorem C7_theorem (fuel : ℕ) (data : List PointData)
    (hlen : data.length < 3)
    (hedge : ∀ r0 r1 : PointData, data = [r0, r1] → r1.distances ≠ []) :
    solve fuel data = .error .insufficientData := by
  rcases data with _ | ⟨r0, _ | ⟨r1, _ | ⟨r2, rest⟩⟩⟩
  · rfl
  · rfl
  · rcases hds : r1.distances with _ | ⟨d, ds⟩
    · exact absurd hds (hedge r0 r1 rfl)
    · simp [solve, solve_initial, getRec, getMeas, hds]
  · simp at hlen
    omega

/-- Claim C7 witness: two records where the second has a measurement fail
with the insufficient-data error. -/
theorem C7_witness :
    solve 0 [⟨0, []⟩, ⟨7, [⟨0, 5⟩]⟩] = .error .insufficientData := by
  refine C7_theorem 0 _ (by norm_num) ?_
  intro r0 r1 h
  injection h with h0 htl
  injection htl with h1 _
  rw [← h1]
  simp

/-! ### Claim C1 -/

/-- Claim C1 counterexample: the collinear configuration of three points
`(0,0)`, `(0,2)`, `(0,1)` with its exact pairwise distances (the first
three conjuncts verify that the supplied distances 2, 1, 1 are exact for
these true coordinates), supplied in a valid placement order, is not
recovered: the two bootstrap circles for record 2 are externally tangent,
so `solve` fails with the disjoint-circles error instead of returning any
placement map. -/
theorem C1_counterexample :
    mdist ((0 : ℝ), (0 : ℝ)) ((0 : ℝ), (2 : ℝ)) = 2 ∧
    mdist ((0 : ℝ), (0 : ℝ)) ((0 : ℝ), (1 : ℝ)) = 1 ∧
    mdist ((0 : ℝ), (2 : ℝ)) ((0 : ℝ), (1 : ℝ)) = 1 ∧
    solve 0 [⟨0, []⟩, ⟨1, [⟨0, 2⟩]⟩, ⟨2, [⟨0, 1⟩, ⟨1, 1⟩]⟩] =
      .error .disjointCircles := by
  have h02 : mdist ((0 : ℝ), (0 : ℝ)) ((0 : ℝ), (2 : ℝ)) = 2 :=
    mdist_sq 0 0 0 2 2 (by norm_num) (by norm_num)
  have hci : circle_intersect 0 ⟨0, 0, 1⟩ ⟨0, 2, 1⟩ = .error .disjointCircles := by
    refine circle_intersect_guard_true 0 _ _ (Or.inl ?_)
    show mdist ((0 : ℝ), (0 : ℝ)) ((0 : ℝ), (2 : ℝ)) ≥ 1 + 1
    rw [h02]
    norm_num
  refine ⟨h02, mdist_sq 0 0 0 1 1 (by norm_num) (by norm_num),
    mdist_sq 0 2 0 1 1 (by norm_num) (by norm_num), ?_⟩
  simp [solve, solve_initial, getRec, getMeas, getCirc, convert_to_circle,
    alLookup, alInsert, hci]

/-- Claim C1 (amended): `solve` does not recover every exact noise-free
configuration: whenever the three bootstrap points are collinear with
point 2 strictly between points 0 and 1 (so the exact distances satisfy
`d01 = r1 + r2` with `r1, r2 > 0`), the two bootstrap circles are tangent
and `solve` fails with the disjoint-circles error instead of returning
any placement map.  Recovery up to the bootstrap rigid transform can hold
only for configurations in which every circle pair used by a placement
passes the strict intersection precondition, and then only up to the
convergence of the iterative search, which is not established here. -/
theorem C1_theorem (fuel : ℕ) (i0 i1 i2 o : ℤ) (ds0 ms : List DistanceData)
    (r1 r2 : ℝ) (rest : List PointData) (h01 : i0 ≠ i1)
    (hr1 : 0 < r1) (hr2 : 0 < r2) :
    solve fuel (⟨i0, ds0⟩ :: ⟨i1, ⟨o, r1 + r2⟩ :: ms⟩ ::
      ⟨i2, [⟨i0, r1⟩, ⟨i1, r2⟩]⟩ :: rest) = .error .disjointCircles := by
  have hmd : mdist ((0 : ℝ), (0 : ℝ)) ((0 : ℝ), r1 + r2) = r1 + r2 :=
    mdist_sq 0 0 0 (r1 + r2) (r1 + r2) (by ring) (by linarith)
  have hci : circle_intersect fuel ⟨0, 0, r1⟩ ⟨0, r1 + r2, r2⟩ =
      .error .disjointCircles := by
    refine circle_intersect_guard_true fuel _ _ (Or.inl ?_)
    show mdist ((0 : ℝ), (0 : ℝ)) ((0 : ℝ), r1 + r2) ≥ r1 + r2
    rw [hmd]
  simp [solve, solve_initial, getRec, getMeas, getCirc, convert_to_circle,
    alLookup, alInsert, h01, hci]

/-- Claim C1 witness: a concrete tangent-bootstrap instance of the amended
claim, with radii 1 and 2 and bootstrap distance 3. -/
theorem C1_witness :
    solve 0 [⟨0, []⟩, ⟨1, [⟨0, (1 : ℝ) + 2⟩]⟩, ⟨2, [⟨0, 1⟩, ⟨1, 2⟩]⟩] =
      .error .disjointCircles :=
  C1_theorem 0 0 1 2 0 [] [] 1 2 [] (by decide) (by norm_num) (by norm_num)

/-! ### Claim C5 -/

theorem triangles_go_bound (all : PlacementMap) :
    ∀ (process : List (ℤ × Pt)) (conns : NeighborGraph),
      (∀ k l, alLookup conns k = some l → l.length ≤ 2) →
      ∀ k l, alLookup (triangles_go all conns process) k = some l →
        l.length ≤ 2 := by
  intro process
  induction process with
  | nil =>
      intro conns h k l hl
      exact h k l hl
  | cons hd t ih =>
      obtain ⟨id, pos⟩ := hd
      intro conns h k l hl
      simp only [triangles_go] at hl
      refine ih _ ?_ k l hl
      intro k2 l2 hl2
      by_cases hk : id = k2
      · subst hk
        rw [alLookup_alInsert_self] at hl2
        injection hl2 with he
        rw [← he]
        simp [List.length_take]
      · rw [alLookup_alInsert_ne _ _ _ _ hk] at hl2
        exact h k2 l2 hl2

/-- Claim C5 (amended): `triangles` assigns at most 2 neighbor ids to
every point; a point may receive fewer than 2 (even zero) when the other
points have already recorded links back to it, so "exactly 2 for every
point" does not hold. -/
theorem C5_theorem (points : PlacementMap) (k : ℤ) (l : List ℤ)
    (h : alLookup (triangles points) k = some l) : l.length ≤ 2 := by
  refine triangles_go_bound points points [] ?_ k l h
  intro k2 l2 h2
  simp [alLookup] at h2

/-- Claim C5 counterexample: for the three collinear points `(0,0)`,
`(1,0)`, `(2,0)`, the neighbor graph assigns point 1 the single neighbor
`[2]` and point 2 no neighbors at all, so not every point receives
exactly 2 neighbor ids. -/
theorem C5_counterexample :
    colinPts.length = 3 ∧
    alLookup (triangles colinPts) 1 = some [2] ∧
    alLookup (triangles colinPts) 2 = some [] ∧
    ¬ ([] : List ℤ).length = 2 := by
  have d01 : mdist (0 : Pt) ((1 : ℝ), (0 : ℝ)) = 1 :=
    mdist_sq 0 0 1 0 1 (by norm_num) (by norm_num)
  have d02 : mdist (0 : Pt) ((2 : ℝ), (0 : ℝ)) = 2 :=
    mdist_sq 0 0 2 0 2 (by norm_num) (by norm_num)
  have d10 : mdist ((1 : ℝ), (0 : ℝ)) (0 : Pt) = 1 :=
    mdist_sq 1 0 0 0 1 (by norm_num) (by norm_num)
  have d12 : mdist ((1 : ℝ), (0 : ℝ)) ((2 : ℝ), (0 : ℝ)) = 1 :=
    mdist_sq 1 0 2 0 1 (by norm_num) (by norm_num)
  have d20 : mdist ((2 : ℝ), (0 : ℝ)) (0 : Pt) = 2 :=
    mdist_sq 2 0 0 0 2 (by norm_num) (by norm_num)
  have d21 : mdist ((2 : ℝ), (0 : ℝ)) ((1 : ℝ), (0 : ℝ)) = 1 :=
    mdist_sq 2 0 1 0 1 (by norm_num) (by norm_num)
  refine ⟨by norm_num [colinPts], ?_, ?_, by norm_num⟩ <;>
    norm_num [triangles, triangles_go, colinPts, sortByDist, insertSorted,
      alInsert, alLookup, List.filter_cons, List.filter_nil,
      d01, d02, d10, d12, d20, d21]

/-- Claim C5 witness: a single-point map, whose only entry receives an
empty (length ≤ 2) neighbor list. -/
theorem C5_witness :
    alLookup (triangles [((5 : ℤ), ((0 : ℝ), (0 : ℝ)))]) 5 = some [] ∧
    ([] : List ℤ).length ≤ 2 := by
  have h : alLookup (triangles [((5 : ℤ), ((0 : ℝ), (0 : ℝ)))]) 5 = some [] := by
    norm_num [triangles, triangles_go, sortByDist, alInsert, alLookup,
      List.filter_cons, List.filter_nil]
  exact ⟨h, C5_theorem _ 5 [] h⟩

/-! ### Claim C8 -/

theorem solveStep_short (fuel : ℕ) (pts : PlacementMap) (rec : PointData)
    (hshort : rec.distances.length < 3) :
    ∀ m, solveStep fuel pts rec ≠ .ok m := by
  intro m h
  rcases hconv : convert_to_circle pts rec.distances with e | circles
  · simp only [solveStep, hconv] at h
    exact Except.noConfusion h
  · simp only [solveStep, hconv] at h
    have hlen : circles.length < 3 := by
      rw [convert_ok_length pts rec.distances circles hconv]
      exact hshort
    have hn2 : circles.get? 2 = none := List.get?_eq_none.mpr (by omega)
    rcases hg0 : circles.get? 0 with _ | c0
    · simp only [getCirc, hg0] at h
      exact Except.noConfusion h
    · simp only [getCirc, hg0] at h
      rcases hg1 : circles.get? 1 with _ | c1
      · simp only [getCirc, hg1] at h
        exact Except.noConfusion h
      · simp only [getCirc, hg1] at h
        rcases hci : circle_intersect fuel c0 c1 with e2 | pq
        · simp only [hci] at h
          exact Except.noConfusion h
        · simp only [hci, getCirc, hn2] at h
          exact Except.noConfusion h

theorem solveLoop_short (fuel : ℕ) :
    ∀ (l : List PointData) (pts : PlacementMap),
      (∃ rec ∈ l, rec.distances.length < 3) →
      ∀ m, solveLoop fuel pts l ≠ .ok m := by
  intro l
  induction l with
  | nil =>
      rintro pts ⟨rec, hmem, -⟩ m -
      exact List.not_mem_nil rec hmem
  | cons p t ih =>
      rintro pts ⟨rec, hmem, hshort⟩ m h
      rcases hstep : solveStep fuel pts p with e | pts2
      · simp only [solveLoop, hstep] at h
        exact Except.noConfusion h
      · simp only [solveLoop, hstep] at h
        rcases List.mem_cons.mp hmem with heq | hmem2
        · subst heq
          exact solveStep_short fuel pts rec hshort pts2 hstep
        · exact ih pts2 ⟨rec, hmem2, hshort⟩ m h

/-- Claim C8 (amended): when some record at index ≥ 3 has fewer than 3
measurements, `solve` never returns a placement map; the failure is not
necessarily the insufficient-measurements error, because the record's
first two measurements are converted and intersected before the missing
third circle is accessed: a missing reference or a disjoint circle pair
in those measurements (or a failure of an earlier record) surfaces
first, and the insufficient-measurements error is raised exactly when
the record is reached and its available measurements convert and
intersect cleanly. -/
theorem C8_theorem (fuel : ℕ) (data : List PointData)
    (h : ∃ rec ∈ data.drop 3, rec.distances.length < 3) :
    ∀ m, solve fuel data ≠ .ok m := by
  intro m hm
  rcases hinit : solve_initial fuel data with e | pts
  · simp only [solve, hinit] at hm
    exact Except.noConfusion hm
  · simp only [solve, hinit] at hm
    exact solveLoop_short fuel (data.drop 3) pts h m hm

/-- Claim C8 counterexample: record 3 has only two measurements, but its
two circles (unit circle at the origin, radius-10 circle at `(0,1)`) are
disjoint, so `solve` fails with the disjoint-circles error rather than
the insufficient-measurements error. -/
theorem C8_counterexample :
    rec3short.distances.length = 2 ∧
    solve 0 [recA, recB, recC, rec3short] = .error .disjointCircles ∧
    solve 0 [recA, recB, recC, rec3short] ≠ .error .insufficientMeasurements := by
  have hci8 : circle_intersect 0 ⟨0, 0, 1⟩ ⟨0, 1, 10⟩ = .error .disjointCircles := by
    refine circle_intersect_guard_true 0 _ _ (Or.inr (Or.inl ?_))
    show mdist ((0 : ℝ), (0 : ℝ)) ((0 : ℝ), (1 : ℝ)) + 1 < 10
    rw [mdist_sq 0 0 0 1 1 (by norm_num) (by norm_num)]
    norm_num
  have hcv8 : convert_to_circle map3 rec3short.distances =
      .ok [⟨0, 0, 1⟩, ⟨0, 1, 10⟩] := by
    simp [convert_to_circle, alLookup, map3, rec3short]
  have hsolve : solve 0 [recA, recB, recC, rec3short] = .error .disjointCircles := by
    simp only [solve, solve_initial_eval 0 [rec3short], List.drop_succ_cons,
      List.drop_zero, solveLoop, solveStep, hcv8, getCirc, List.get?_cons_zero,
      List.get?_cons_succ, hci8]
  refine ⟨by simp [rec3short], hsolve, ?_⟩
  rw [hsolve]
  simp

/-- Claim C8 witness: the amended claim applied to the concrete
short-record input, instantiated at the bootstrap result map. -/
theorem C8_witness : solve 5 [recA, recB, recC, rec3short] ≠ .ok map4 := by
  refine C8_theorem 5 _ ?_ map4
  exact ⟨rec3short, by simp, by norm_num [rec3short]⟩

/-! ### Claim C9 -/

theorem solve_initial_rest (fuel : ℕ) (a b c : PointData)
    (r1 r2 : List PointData) :
    solve_initial fuel (a :: b :: c :: r1) =
      solve_initial fuel (a :: b :: c :: r2) := by
  simp only [solve_initial, getRec, List.get?_cons_zero, List.get?_cons_succ]

theorem solveStep_agree (fuel : ℕ) (pts : PlacementMap) (p q : PointData)
    (hid : p.id = q.id) (htake : p.distances.take 3 = q.distances.take 3)
    (mp mq : PlacementMap)
    (hp : solveStep fuel pts p = .ok mp) (hq : solveStep fuel pts q = .ok mq) :
    mp = mq := by
  rcases hcp : convert_to_circle pts p.distances with e | cp
  · rw [solveStep, hcp] at hp
    exact Except.noConfusion hp
  rcases hcq : convert_to_circle pts q.distances with e | cq
  · rw [solveStep, hcq] at hq
    exact Except.noConfusion hq
  simp only [solveStep, hcp] at hp
  simp only [solveStep, hcq] at hq
  have htk : cp.take 3 = cq.take 3 := by
    have t1 := convert_ok_take pts 3 p.distances cp hcp
    have t2 := convert_ok_take pts 3 q.distances cq hcq
    rw [htake] at t1
    rw [t1] at t2
    exact Except.ok.inj t2
  have hg : ∀ i, i < 3 → cq.get? i = cp.get? i := by
    intro i hi
    rw [← get?_take_of_lt cp 3 i hi, ← get?_take_of_lt cq 3 i hi, htk]
  rcases hg0 : cp.get? 0 with _ | c0
  · simp only [getCirc, hg0] at hp
    exact Except.noConfusion hp
  have hg0q : cq.get? 0 = some c0 := by rw [hg 0 (by omega), hg0]
  simp only [getCirc, hg0, hg0q] at hp hq
  rcases hg1 : cp.get? 1 with _ | c1
  · simp only [getCirc, hg1] at hp
    exact Except.noConfusion hp
  have hg1q : cq.get? 1 = some c1 := by rw [hg 1 (by omega), hg1]
  simp only [getCirc, hg1, hg1q] at hp hq
  rcases hci : circle_intersect fuel c0 c1 with e2 | pq2
  · simp only [hci] at hp
    exact Except.noConfusion hp
  simp only [hci] at hp hq
  rcases hg2 : cp.get? 2 with _ | c2
  · simp only [getCirc, hg2] at hp
    exact Except.noConfusion hp
  have hg2q : cq.get? 2 = some c2 := by rw [hg 2 (by omega), hg2]
  simp only [getCirc, hg2, hg2q] at hp hq
  rw [← Except.ok.inj hp, ← Except.ok.inj hq, hid]

theorem solveLoop_agree (fuel : ℕ) :
    ∀ (l1 l2 : List PointData),
      List.Forall₂ (fun p q : PointData =>
        p.id = q.id ∧ p.distances.take 3 = q.distances.take 3) l1 l2 →
      ∀ (pts m1 m2 : PlacementMap),
        solveLoop fuel pts l1 = .ok m1 → solveLoop fuel pts l2 = .ok m2 →
        m1 = m2 := by
  intro l1 l2 hrel
  induction hrel with
  | nil =>
      intro pts m1 m2 h1 h2
      simp only [solveLoop] at h1 h2
      rw [← Except.ok.inj h1, ← Except.ok.inj h2]
  | cons hpq hrel2 ih =>
      rename_i p q t1 t2
      intro pts m1 m2 h1 h2
      rcases hsp : solveStep fuel pts p with e | mp
      · simp only [solveLoop, hsp] at h1
        exact Except.noConfusion h1
      rcases hsq : solveStep fuel pts q with e2 | mq
      · simp only [solveLoop, hsq] at h2
        exact Except.noConfusion h2
      simp only [solveLoop, hsp] at h1
      simp only [solveLoop, hsq] at h2
      have hmpq : mp = mq := solveStep_agree fuel pts p q hpq.1 hpq.2 mp mq hsp hsq
      rw [← hmpq] at h2
      exact ih mp m1 m2 h1 h2

/-- Claim C9 (amended): two inputs that agree on the first three records
and whose later records agree on id and on the first three measurements
produce the same placement map whenever both runs succeed.  The
success--failure outcome itself is not preserved, because every
measurement of a record is converted to a circle before the first three
are used, so an ignored extra measurement referencing an unplaced id
aborts the solve. -/
theorem C9_theorem (fuel : ℕ) (a b c : PointData)
    (rest1 rest2 : List PointData) (m1 m2 : PlacementMap)
    (hrel : List.Forall₂ (fun p q : PointData =>
      p.id = q.id ∧ p.distances.take 3 = q.distances.take 3) rest1 rest2)
    (h1 : solve fuel (a :: b :: c :: rest1) = .ok m1)
    (h2 : solve fuel (a :: b :: c :: rest2) = .ok m2) : m1 = m2 := by
  rcases hinit : solve_initial fuel (a :: b :: c :: rest1) with e | pts
  · simp only [solve, hinit] at h1
    exact Except.noConfusion h1
  · have hinit2 : solve_initial fuel (a :: b :: c :: rest2) = .ok pts := by
      rw [solve_initial_rest fuel a b c rest2 rest1, hinit]
    simp only [solve, hinit, hinit2, List.drop_succ_cons, List.drop_zero] at h1 h2
    exact solveLoop_agree fuel rest1 rest2 hrel pts m1 m2 h1 h2

theorem solveStep_rec3extra (fuel : ℕ) :
    solveStep fuel map3 rec3extra = .ok map4 := by
  have h00 : mdist ((0 : ℝ), (0 : ℝ)) ((0 : ℝ), (0 : ℝ)) = 0 :=
    mdist_sq 0 0 0 0 0 (by norm_num) (by norm_num)
  have h0e : mdist ((0 : ℝ), (0 : ℝ)) ((-epsR : ℝ), (0 : ℝ)) = epsR :=
    mdist_sq 0 0 (-epsR) 0 epsR (by ring) (by norm_num [epsR])
  have hconv : convert_to_circle map3 rec3extra.distances =
      .ok [⟨0, 0, epsR⟩, ⟨0, 1, 1⟩, ⟨0, 0, 1⟩, ⟨0, 0, 1⟩] := by
    simp [convert_to_circle, alLookup, map3, rec3extra]
  have habs : ¬ (|(0 : ℝ) - 1| < |epsR - 1|) := by
    rw [show |(0 : ℝ) - 1| = 1 by norm_num,
      abs_of_neg (by norm_num [epsR] : epsR - 1 < 0)]
    norm_num [epsR]
  simp only [solveStep, hconv, getCirc, List.get?_cons_zero, List.get?_cons_succ,
    circle_intersect_tiny fuel]
  rw [h00, h0e, if_neg habs]
  simp [alInsert, map3, map4, rec3extra]

theorem solve_d4extra (fuel : ℕ) :
    solve fuel [recA, recB, recC, rec3extra] = .ok map4 := by
  simp only [solve, solve_initial_eval fuel [rec3extra], List.drop_succ_cons,
    List.drop_zero, solveLoop, solveStep_rec3extra fuel]

/-- Claim C9 counterexample: two 4-record inputs that are identical except
in a measurement after the third of record 3 (an extra ignored-for-
placement measurement referencing the unplaced id 99) have different
outcomes: the first succeeds, the second fails with the
missing-reference error. -/
theorem C9_counterexample :
    rec3good.id = rec3bad.id ∧
    rec3good.distances.take 3 = rec3bad.distances.take 3 ∧
    solve 0 [recA, recB, recC, rec3good] = .ok map4 ∧
    solve 0 [recA, recB, recC, rec3bad] = .error .missingReference := by
  have hconvbad : convert_to_circle map3 rec3bad.distances =
      .error .missingReference := by
    simp [convert_to_circle, alLookup, map3, rec3bad]
  refine ⟨by simp [rec3good, rec3bad], by simp [rec3good, rec3bad],
    solve_d4good 0, ?_⟩
  simp only [solve, solve_initial_eval 0 [rec3bad], List.drop_succ_cons,
    List.drop_zero, solveLoop, solveStep, hconvbad]

/-- Claim C9 witness: the amended claim applied to two concrete related
inputs (record 3 with and without an extra fourth measurement to the
placed point 0), both of which succeed and agree. -/
theorem C9_witness :
    List.Forall₂ (fun p q : PointData =>
      p.id = q.id ∧ p.distances.take 3 = q.distances.take 3)
      [rec3good] [rec3extra] ∧
    solve 2 [recA, recB, recC, rec3good] = .ok map4 ∧
    solve 2 [recA, recB, recC, rec3extra] = .ok map4 ∧
    map4 = map4 := by
  have hrel : List.Forall₂ (fun p q : PointData =>
      p.id = q.id ∧ p.distances.take 3 = q.distances.take 3)
      [rec3good] [rec3extra] := by
    refine List.Forall₂.cons ⟨?_, ?_⟩ List.Forall₂.nil <;>
      simp [rec3good, rec3extra]
  exact ⟨hrel, solve_d4good 2, solve_d4extra 2,
    C9_theorem 2 recA recB recC [rec3good] [rec3extra] map4 map4 hrel
      (solve_d4good 2) (solve_d4extra 2)⟩

/-! ### Claim C2 -/

/-- Claim C2: for a record processed by the loop body of `solve` (the body
applied to every record at index ≥ 3), the stored position is whichever
of the two intersection candidates has the smaller discrepancy
`|dist(candidate, thirdCenter) - thirdRadius|` against the circle built
from the record's third measurement: the first candidate exactly when its
discrepancy is strictly smaller, the second otherwise; in either case the
stored candidate's discrepancy is at most the other candidate's. -/
theorem C2_theorem (fuel : ℕ) (pts : PlacementMap) (rec : PointData)
    (m : PlacementMap) (h : solveStep fuel pts rec = .ok m) :
    ∃ circles c0 c1 c2 pq pos,
      convert_to_circle pts rec.distances = .ok circles ∧
      circles.get? 0 = some c0 ∧ circles.get? 1 = some c1 ∧
      circles.get? 2 = some c2 ∧
      circle_intersect fuel c0 c1 = .ok pq ∧
      alLookup m rec.id = some pos ∧
      ((pos = pq.1 ∧
         |mdist (c2.x, c2.y) pq.1 - c2.r| < |mdist (c2.x, c2.y) pq.2 - c2.r|) ∨
       (pos = pq.2 ∧
         ¬ |mdist (c2.x, c2.y) pq.1 - c2.r| < |mdist (c2.x, c2.y) pq.2 - c2.r|)) ∧
      |mdist (c2.x, c2.y) pos - c2.r| ≤ |mdist (c2.x, c2.y) pq.1 - c2.r| ∧
      |mdist (c2.x, c2.y) pos - c2.r| ≤ |mdist (c2.x, c2.y) pq.2 - c2.r| := by
  rcases hconv : convert_to_circle pts rec.distances with e | circles
  · rw [solveStep, hconv] at h
    exact Except.noConfusion h
  simp only [solveStep, hconv] at h
  rcases hg0 : circles.get? 0 with _ | c0
  · simp only [getCirc, hg0] at h
    exact Except.noConfusion h
  simp only [getCirc, hg0] at h
  rcases hg1 : circles.get? 1 with _ | c1
  · simp only [getCirc, hg1] at h
    exact Except.noConfusion h
  simp only [getCirc, hg1] at h
  rcases hci : circle_intersect fuel c0 c1 with e2 | pq
  · simp only [hci] at h
    exact Except.noConfusion h
  simp only [hci] at h
  rcases hg2 : circles.get? 2 with _ | c2
  · simp only [getCirc, hg2] at h
    exact Except.noConfusion h
  simp only [getCirc, hg2] at h
  have hm := Except.ok.inj h
  by_cases hlt : |mdist (c2.x, c2.y) pq.1 - c2.r| < |mdist (c2.x, c2.y) pq.2 - c2.r|
  · refine ⟨circles, c0, c1, c2, pq, pq.1, rfl, hg0, hg1, hg2, hci, ?_,
      Or.inl ⟨rfl, hlt⟩, le_refl _, le_of_lt hlt⟩
    rw [← hm, if_pos hlt]
    exact alLookup_alInsert_self pts rec.id pq.1
  · refine ⟨circles, c0, c1, c2, pq, pq.2, rfl, hg0, hg1, hg2, hci, ?_,
      Or.inr ⟨rfl, hlt⟩, le_of_not_lt hlt, le_refl _⟩
    rw [← hm, if_neg hlt]
    exact alLookup_alInsert_self pts rec.id pq.2

/-- Claim C2 witness: the claim instantiated on the concrete record
`rec3good` over the bootstrap map: the candidates are `(0,0)` and
`(-epsR, 0)`, the third circle is the unit circle at the origin, and the
second candidate, which has the smaller discrepancy, is the stored one. -/
theorem C2_witness :
    alLookup map4 3 = some ((-epsR : ℝ), (0 : ℝ)) ∧
    |mdist ((0 : ℝ), (0 : ℝ)) ((-epsR : ℝ), (0 : ℝ)) - 1| ≤
      |mdist ((0 : ℝ), (0 : ℝ)) ((0 : ℝ), (0 : ℝ)) - 1| := by
  obtain ⟨circles, c0, c1, c2, pq, pos, hconv, hg0, hg1, hg2, hci, hlook,
    hsel, hle1, hle2⟩ := C2_theorem 1 map3 rec3good map4 (solveStep_rec3good 1)
  have hcc : convert_to_circle map3 rec3good.distances =
      .ok [⟨0, 0, epsR⟩, ⟨0, 1, 1⟩, ⟨0, 0, 1⟩] := by
    simp [convert_to_circle, alLookup, map3, rec3good]
  rw [hcc] at hconv
  have hcir := Except.ok.inj hconv
  subst hcir
  simp only [List.get?_cons_zero, List.get?_cons_succ, Option.some.injEq] at hg0 hg1 hg2
  subst hg0
  subst hg1
  subst hg2
  rw [circle_intersect_tiny 1] at hci
  have hpq := Except.ok.inj hci
  subst hpq
  have hdir : alLookup map4 3 = some ((-epsR : ℝ), (0 : ℝ)) := by
    simp [map4, alLookup]
  simp only [rec3good] at hlook
  rw [hdir] at hlook
  have hpos := Option.some.inj hlook
  subst hpos
  exact ⟨hdir, hle1⟩

/-! ### Claim C3 -/

theorem solveStep_shape (fuel : ℕ) (pts : PlacementMap) (rec : PointData)
    (m : PlacementMap) (h : solveStep fuel pts rec = .ok m) :
    ∃ pos, m = alInsert pts rec.id pos := by
  rcases hconv : convert_to_circle pts rec.distances with e | circles
  · rw [solveStep, hconv] at h
    exact Except.noConfusion h
  simp only [solveStep, hconv] at h
  rcases hg0 : circles.get? 0 with _ | c0
  · simp only [getCirc, hg0] at h
    exact Except.noConfusion h
  simp only [getCirc, hg0] at h
  rcases hg1 : circles.get? 1 with _ | c1
  · simp only [getCirc, hg1] at h
    exact Except.noConfusion h
  simp only [getCirc, hg1] at h
  rcases hci : circle_intersect fuel c0 c1 with e2 | pq
  · simp only [hci] at h
    exact Except.noConfusion h
  simp only [hci] at h
  rcases hg2 : circles.get? 2 with _ | c2
  · simp only [getCirc, hg2] at h
    exact Except.noConfusion h
  simp only [getCirc, hg2] at h
  exact ⟨_, (Except.ok.inj h).symm⟩

theorem solveLoop_lookup (fuel : ℕ) :
    ∀ (l : List PointData) (pts pts2 : PlacementMap) (k : ℤ),
      solveLoop fuel pts l = .ok pts2 → (∀ rec ∈ l, rec.id ≠ k) →
      alLookup pts2 k = alLookup pts k := by
  intro l
  induction l with
  | nil =>
      intro pts pts2 k h _
      simp only [solveLoop] at h
      rw [← Except.ok.inj h]
  | cons p t ih =>
      intro pts pts2 k h hne
      rcases hsp : solveStep fuel pts p with e | mp
      · simp only [solveLoop, hsp] at h
        exact Except.noConfusion h
      · simp only [solveLoop, hsp] at h
        obtain ⟨pos, rfl⟩ := solveStep_shape fuel pts p mp hsp
        rw [ih _ pts2 k h (fun r hr => hne r (List.mem_cons_of_mem p hr))]
        exact alLookup_alInsert_ne pts p.id k pos (hne p (List.mem_cons_self p t))

/-- Claim C3: whenever `solve` returns a map on an input of at least three
records with distinct ids (as the data model requires), record 0's point
is mapped to `(0, 0)`, record 1's point to `(0, d)` where `d` is the
distance of record 1's first measurement, and record 2's point to the
first candidate returned by intersecting the first two circles built from
record 2's measurements over the two bootstrap placements. -/
theorem C3_theorem (fuel : ℕ) (a b c : PointData) (rest : List PointData)
    (pts : PlacementMap)
    (hnd : ((a :: b :: c :: rest).map PointData.id).Nodup)
    (h : solve fuel (a :: b :: c :: rest) = .ok pts) :
    ∃ m0, b.distances.get? 0 = some m0 ∧
      alLookup pts a.id = some ((0 : ℝ), (0 : ℝ)) ∧
      alLookup pts b.id = some ((0 : ℝ), m0.distance) ∧
      ∃ circles c0 c1 pq,
        convert_to_circle
          (alInsert (alInsert [] a.id ((0 : ℝ), (0 : ℝ))) b.id
            ((0 : ℝ), m0.distance)) c.distances = .ok circles ∧
        circles.get? 0 = some c0 ∧ circles.get? 1 = some c1 ∧
        circle_intersect fuel c0 c1 = .ok pq ∧
        alLookup pts c.id = some pq.1 := by
  rw [List.map_cons, List.map_cons, List.map_cons] at hnd
  obtain ⟨hanotin, hnd2⟩ := List.nodup_cons.mp hnd
  obtain ⟨hbnotin, hnd3⟩ := List.nodup_cons.mp hnd2
  obtain ⟨hcnotin, -⟩ := List.nodup_cons.mp hnd3
  have hab : a.id ≠ b.id := fun e => hanotin (by rw [e]; exact List.mem_cons_self _ _)
  have hac : a.id ≠ c.id := fun e =>
    hanotin (by rw [e]; exact List.mem_cons_of_mem _ (List.mem_cons_self _ _))
  have haR : ∀ r ∈ rest, r.id ≠ a.id := fun r hr e =>
    hanotin (by
      rw [← e]
      exact List.mem_cons_of_mem _ (List.mem_cons_of_mem _
        (List.mem_map_of_mem PointData.id hr)))
  have hbc : b.id ≠ c.id := fun e => hbnotin (by rw [e]; exact List.mem_cons_self _ _)
  have hbR : ∀ r ∈ rest, r.id ≠ b.id := fun r hr e =>
    hbnotin (by
      rw [← e]
      exact List.mem_cons_of_mem _ (List.mem_map_of_mem PointData.id hr))
  have hcR : ∀ r ∈ rest, r.id ≠ c.id := fun r hr e =>
    hcnotin (by rw [← e]; exact List.mem_map_of_mem PointData.id hr)
  rcases hinit : solve_initial fuel (a :: b :: c :: rest) with e | pmid
  · simp only [solve, hinit] at h
    exact Except.noConfusion h
  simp only [solve, hinit, List.drop_succ_cons, List.drop_zero] at h
  simp only [solve_initial, getRec, List.get?_cons_zero, List.get?_cons_succ] at hinit
  rcases hm0 : b.distances.get? 0 with _ | m0
  · simp only [getMeas, hm0] at hinit
    exact Except.noConfusion hinit
  simp only [getMeas, hm0] at hinit
  rcases hcv : convert_to_circle
      (alInsert (alInsert [] a.id ((0 : ℝ), (0 : ℝ))) b.id
        ((0 : ℝ), m0.distance)) c.distances with e | circles
  · simp only [hcv] at hinit
    exact Except.noConfusion hinit
  simp only [hcv] at hinit
  rcases hg0 : circles.get? 0 with _ | c0
  · simp only [getCirc, hg0] at hinit
    exact Except.noConfusion hinit
  simp only [getCirc, hg0] at hinit
  rcases hg1 : circles.get? 1 with _ | c1
  · simp only [getCirc, hg1] at hinit
    exact Except.noConfusion hinit
  simp only [getCirc, hg1] at hinit
  rcases hci : circle_intersect fuel c0 c1 with e2 | pq
  · simp only [hci] at hinit
    exact Except.noConfusion hinit
  simp only [hci] at hinit
  have hpmid := Except.ok.inj hinit
  have hLa : alLookup pts a.id = some ((0 : ℝ), (0 : ℝ)) := by
    rw [solveLoop_lookup fuel rest pmid pts a.id h haR, ← hpmid,
      alLookup_alInsert_ne _ _ _ _ (Ne.symm hac),
      alLookup_alInsert_ne _ _ _ _ (Ne.symm hab)]
    exact alLookup_alInsert_self _ _ _
  have hLb : alLookup pts b.id = some ((0 : ℝ), m0.distance) := by
    rw [solveLoop_lookup fuel rest pmid pts b.id h hbR, ← hpmid,
      alLookup_alInsert_ne _ _ _ _ (Ne.symm hbc)]
    exact alLookup_alInsert_self _ _ _
  have hLc : alLookup pts c.id = some pq.1 := by
    rw [solveLoop_lookup fuel rest pmid pts c.id h hcR, ← hpmid]
    exact alLookup_alInsert_self _ _ _
  exact ⟨m0, rfl, hLa, hLb, circles, c0, c1, pq, hcv, hg0, hg1, hci, hLc⟩

/-- Claim C3 witness: the claim instantiated on the concrete bootstrap
records: point 0 at the origin, point 1 at `(0, 1)`, and point 2 at the
first intersection candidate `(0, 0)`. -/
theorem C3_witness :
    alLookup map3 0 = some ((0 : ℝ), (0 : ℝ)) ∧
    alLookup map3 1 = some ((0 : ℝ), (1 : ℝ)) ∧
    alLookup map3 2 = some ((0 : ℝ), (0 : ℝ)) := by
  obtain ⟨m0, hm0, hLa, hLb, circles, c0, c1, pq, hcv, hg0, hg1, hci, hLc⟩ :=
    C3_theorem 3 recA recB recC [] map3
      (by simp [recA, recB, recC]) (solve_boot3 3)
  simp only [recB, List.get?_cons_zero, Option.some.injEq] at hm0
  subst hm0
  simp only [recA] at hLa
  simp only [recB] at hLb
  simp only [recC] at hLc
  have hcc : convert_to_circle
      (alInsert (alInsert [] (0 : ℤ) ((0 : ℝ), (0 : ℝ))) 1
        ((0 : ℝ), (1 : ℝ))) recC.distances =
      .ok [⟨0, 0, epsR⟩, ⟨0, 1, 1⟩] := by
    simp [convert_to_circle, alLookup, alInsert, recC]
  simp only [recA, recB] at hcv
  rw [hcc] at hcv
  have hcir := Except.ok.inj hcv
  subst hcir
  simp only [List.get?_cons_zero, List.get?_cons_succ, Option.some.injEq] at hg0 hg1
  subst hg0
  subst hg1
  rw [circle_intersect_tiny 3] at hci
  have hpq := Except.ok.inj hci
  subst hpq
  exact ⟨hLa, hLb, hLc⟩

end PointMapper
